import Mathlib

/-
Shallow embedding of the dray `Clip` filter (clip.cpp): the distance-field
evaluators (Sphere, SinglePlane, MultiPlane, Box), the shape-configuration
orchestrator (`Clip::InternalsType`), and the pipeline driver
(`Clip::execute`).  `Float` is modelled as the rationals; the external math
square root is a parameter `sqrt : Rat -> Rat` threaded through the
definitions that call it.  The external clip-by-field collaborator
(`ClipField`) is out of scope of the analysed file and is modelled as an
arbitrary function from its parameter record and an input dataset to an
output dataset.
-/

namespace Dray

/-- Model of `Vec<Float, 3>`. -/
structure Vec3 where
  x : ℚ
  y : ℚ
  z : ℚ
deriving DecidableEq

/-- Model of `normalize` (clip.cpp lines 27-37): compute the magnitude with
the external `sqrt`; divide the components by it only when it is positive. -/
def normalize (sqrt : ℚ → ℚ) (v : Vec3) : Vec3 :=
  let mag := sqrt (v.x * v.x + v.y * v.y + v.z * v.z)
  if 0 < mag then ⟨v.x / mag, v.y / mag, v.z / mag⟩ else v

/-- Model of `GridFunction<n>`: topology counters, connectivity, and one
value per control point (a `Vec3` for the mesh, a scalar for a field). -/
structure GridFunction (α : Type) where
  el_dofs : ℤ
  size_el : ℤ
  size_ctrl : ℤ
  ctrl_idx : List ℤ
  values : List α
deriving DecidableEq

/-- Model of a mesh: its dof grid function and order, plus its name
(read by `Clip::execute` via `dom.mesh()->name()`). -/
structure Mesh where
  name : String
  gf : GridFunction Vec3
  order : ℤ
deriving DecidableEq

/-- Common body of the four evaluators: copy `m_el_dofs`, `m_size_el`,
`m_size_ctrl`, `m_ctrl_idx` from the mesh grid function and map the
per-point distance over the control points (the `RAJA::forall` loop). -/
def mkDistanceField (dist : Vec3 → ℚ) (mgf : GridFunction Vec3) : GridFunction ℚ :=
  { el_dofs := mgf.el_dofs
  , size_el := mgf.size_el
  , size_ctrl := mgf.size_ctrl
  , ctrl_idx := mgf.ctrl_idx
  , values := mgf.values.map dist }

/-- Per-point body of `SphereDistance::operator()` (lines 80-89). -/
def spherePointDist (sqrt : ℚ → ℚ) (center : Vec3) (p : Vec3) : ℚ :=
  let dx := center.x - p.x
  let dy := center.y - p.y
  let dz := center.z - p.z
  sqrt (dx * dx + dy * dy + dz * dz)

/-- Per-point body of `SinglePlaneDistance::operator()` (lines 152-158),
also the plane term of `MultiPlaneDistance::operator()` (lines 246-249). -/
def singlePlanePointDist (origin normal p : Vec3) : ℚ :=
  (p.x - origin.x) * normal.x + (p.y - origin.y) * normal.y + (p.z - origin.z) * normal.z

/-- Model of `Vec<Vec<Float, 3>, 3>`: the three plane origins or normals. -/
structure Planes3 where
  p0 : Vec3
  p1 : Vec3
  p2 : Vec3
deriving DecidableEq

/-- Indexing into the three-element plane array; all reads in the source
use indices 0..2. -/
def Planes3.get (ps : Planes3) : ℕ → Vec3
  | 0 => ps.p0
  | 1 => ps.p1
  | _ => ps.p2

/-- Per-point body of `MultiPlaneDistance::operator()` (lines 240-256): loop
over the planes; iteration 0 initialises `pdist`, later iterations take the
running `min`.  The `0` seed models the uninitialised `pdist`, which the
source never reads because the constructor enforces `1 <= nplanes <= 3`. -/
def multiPlanePointDist (origin normal : Planes3) (nplanes : ℕ) (p : Vec3) : ℚ :=
  (List.range nplanes).foldl
    (fun pdist q =>
      let dist := singlePlanePointDist (origin.get q) (normal.get q) p
      if q = 0 then dist else min pdist dist)
    0

/-- Model of `Range` inside `AABB<3>`: `min()` and `max()` of one axis. -/
structure RangeQ where
  rmin : ℚ
  rmax : ℚ
deriving DecidableEq

/-- Model of `AABB<3>`: `m_ranges[0..2]`. -/
structure AABB where
  r0 : RangeQ
  r1 : RangeQ
  r2 : RangeQ
deriving DecidableEq

/-- Per-point body of `BoxDistance::operator()` (lines 316-400): six
half-space blocks (xmin, xmax, ymin, ymax, zmin, zmax), each a dot product
with the face's outward normal, combined with `max`. -/
def boxPointDist (b : AABB) (p : Vec3) : ℚ :=
  let dxmin := (p.x - b.r0.rmin) * (-1) + (p.y - b.r1.rmin) * 0 + (p.z - b.r2.rmin) * 0
  let d1 := dxmin
  let dxmax := (p.x - b.r0.rmax) * 1 + (p.y - b.r1.rmin) * 0 + (p.z - b.r2.rmin) * 0
  let d2 := max d1 dxmax
  let dymin := (p.x - b.r0.rmin) * 0 + (p.y - b.r1.rmin) * (-1) + (p.z - b.r2.rmin) * 0
  let d3 := max d2 dymin
  let dymax := (p.x - b.r0.rmin) * 0 + (p.y - b.r1.rmax) * 1 + (p.z - b.r2.rmin) * 0
  let d4 := max d3 dymax
  let dzmin := (p.x - b.r0.rmin) * 0 + (p.y - b.r1.rmin) * 0 + (p.z - b.r2.rmin) * (-1)
  let d5 := max d4 dzmin
  let dzmax := (p.x - b.r0.rmin) * 0 + (p.y - b.r1.rmin) * 0 + (p.z - b.r2.rmax) * 1
  max d5 dzmax

/-- `SphereDistance` applied to a mesh grid function. -/
def sphereDistanceField (sqrt : ℚ → ℚ) (center : Vec3) (mgf : GridFunction Vec3) :
    GridFunction ℚ :=
  mkDistanceField (spherePointDist sqrt center) mgf

/-- `SinglePlaneDistance` applied to a mesh grid function; the constructor
(lines 111-120) normalizes `m_normal` before the loop runs. -/
def singlePlaneDistanceField (sqrt : ℚ → ℚ) (origin normal : Vec3)
    (mgf : GridFunction Vec3) : GridFunction ℚ :=
  mkDistanceField (singlePlanePointDist origin (normalize sqrt normal)) mgf

/-- `MultiPlaneDistance` applied to a mesh grid function; the constructor
(lines 197-207) rejects a plane count outside 1..3 with `DRAY_ERROR`
(modelled as `none`) and normalizes all three normals. -/
def multiPlaneDistanceField (sqrt : ℚ → ℚ) (origin normal : Planes3) (nplanes : ℤ)
    (mgf : GridFunction Vec3) : Option (GridFunction ℚ) :=
  if 3 < nplanes ∨ nplanes < 1 then none
  else
    let nrm : Planes3 := ⟨normalize sqrt normal.p0, normalize sqrt normal.p1,
                          normalize sqrt normal.p2⟩
    some (mkDistanceField (multiPlanePointDist origin nrm nplanes.toNat) mgf)

/-- `BoxDistance` applied to a mesh grid function. -/
def boxDistanceField (b : AABB) (mgf : GridFunction Vec3) : GridFunction ℚ :=
  mkDistanceField (boxPointDist b) mgf

/-- Model of `Clip::InternalsType` (lines 417-595): all shape parameters
live side by side; `clip_mode` selects the active one. -/
structure Internals where
  boxbounds : AABB
  sphere_center : Vec3
  sphere_radius : ℚ
  plane_origin : Planes3
  plane_normal : Planes3
  clip_mode : ℤ
deriving DecidableEq

/-- Member initialisers of `Clip::InternalsType` (lines 588-594).  The
default `AABB` is dray's empty box sentinel; its numeric content is never
read before `SetBoxClip` overwrites it, so zeros stand in for it here. -/
def Internals.init : Internals :=
  { boxbounds := ⟨⟨0, 0⟩, ⟨0, 0⟩, ⟨0, 0⟩⟩
  , sphere_center := ⟨0, 0, 0⟩
  , sphere_radius := 1
  , plane_origin := ⟨⟨0, 0, 0⟩, ⟨0, 0, 0⟩, ⟨0, 0, 0⟩⟩
  , plane_normal := ⟨⟨1, 0, 0⟩, ⟨0, 1, 0⟩, ⟨0, 0, 1⟩⟩
  , clip_mode := 2 }

/-- `InternalsType::SetBoxClip` (lines 428-432). -/
def Internals.setBoxClip (it : Internals) (bounds : AABB) : Internals :=
  { it with clip_mode := 0, boxbounds := bounds }

/-- `InternalsType::SetSphereClip` (lines 434-441). -/
def Internals.setSphereClip (it : Internals) (center : Vec3) (radius : ℚ) : Internals :=
  { it with clip_mode := 1, sphere_center := center, sphere_radius := radius }

/-- `InternalsType::SetPlaneClip` (lines 443-452). -/
def Internals.setPlaneClip (it : Internals) (origin normal : Vec3) : Internals :=
  { it with clip_mode := 2,
            plane_origin := { it.plane_origin with p0 := origin },
            plane_normal := { it.plane_normal with p0 := normal } }

/-- `InternalsType::Set2PlaneClip` (lines 454-473). -/
def Internals.set2PlaneClip (it : Internals) (origin1 normal1 origin2 normal2 : Vec3) :
    Internals :=
  { it with clip_mode := 3,
            plane_origin := { it.plane_origin with p0 := origin1, p1 := origin2 },
            plane_normal := { it.plane_normal with p0 := normal1, p1 := normal2 } }

/-- `InternalsType::Set3PlaneClip` (lines 475-503). -/
def Internals.set3PlaneClip
    (it : Internals) (origin1 normal1 origin2 normal2 origin3 normal3 : Vec3) :
    Internals :=
  { it with clip_mode := 4,
            plane_origin := ⟨origin1, origin2, origin3⟩,
            plane_normal := ⟨normal1, normal2, normal3⟩ }

/-- `InternalsType::num_passes` (lines 505-514). -/
def Internals.num_passes (it : Internals) (multipass : Bool) : ℤ :=
  if it.clip_mode = 3 ∧ multipass = true then 2
  else if it.clip_mode = 4 ∧ multipass = true then 3
  else 1

/-- `InternalsType::make_box_distances` (lines 516-525): pairs the field
with the clip value it writes through the out-parameter. -/
def Internals.make_box_distances (it : Internals) (m : Mesh) : GridFunction ℚ × ℚ :=
  (boxDistanceField it.boxbounds m.gf, 0)

/-- `InternalsType::make_sphere_distances` (lines 527-536). -/
def Internals.make_sphere_distances (it : Internals) (sqrt : ℚ → ℚ) (m : Mesh) :
    GridFunction ℚ × ℚ :=
  (sphereDistanceField sqrt it.sphere_center m.gf, it.sphere_radius)

/-- `InternalsType::make_plane_distances` (lines 538-555). -/
def Internals.make_plane_distances (it : Internals) (sqrt : ℚ → ℚ) (m : Mesh)
    (plane_index : ℕ) : GridFunction ℚ × ℚ :=
  (singlePlaneDistanceField sqrt (it.plane_origin.get plane_index)
     (it.plane_normal.get plane_index) m.gf, 0)

/-- `InternalsType::make_multi_plane_distances` (lines 557-566): the plane
count handed to `MultiPlaneDistance` is `clip_mode - 1`. -/
def Internals.make_multi_plane_distances (it : Internals) (sqrt : ℚ → ℚ) (m : Mesh) :
    Option (GridFunction ℚ × ℚ) :=
  (multiPlaneDistanceField sqrt it.plane_origin it.plane_normal (it.clip_mode - 1)
      m.gf).map (fun gf => (gf, 0))

/-- `InternalsType::make_distances` (lines 568-586): the dispatch table over
`clip_mode` and `multipass`.  A mode outside 0..4 leaves the returned field
null in the source (the caller would then dereference null); modelled as
`none`. -/
def Internals.make_distances (it : Internals) (sqrt : ℚ → ℚ) (m : Mesh)
    (multipass : Bool) (pass : ℕ) : Option (GridFunction ℚ × ℚ) :=
  if it.clip_mode = 0 then some (it.make_box_distances m)
  else if it.clip_mode = 1 then some (it.make_sphere_distances sqrt m)
  else if it.clip_mode = 2 then some (it.make_plane_distances sqrt m 0)
  else if it.clip_mode = 3 ∨ it.clip_mode = 4 then
    if multipass then some (it.make_plane_distances sqrt m pass)
    else it.make_multi_plane_distances sqrt m
  else none

/-- A named scalar field attached to a dataset. -/
structure Field where
  name : String
  mesh_name : String
  gf : GridFunction ℚ
  order : ℤ
deriving DecidableEq

/-- Model of `DataSet`: at most one mesh plus named fields. -/
structure DataSet where
  mesh : Option Mesh
  fields : List Field
deriving DecidableEq

/-- `DataSet::add_field`. -/
def DataSet.add_field (ds : DataSet) (f : Field) : DataSet :=
  { ds with fields := ds.fields ++ [f] }

/-- `DataSet::has_field`. -/
def DataSet.has_field (ds : DataSet) (nm : String) : Bool :=
  ds.fields.any (fun f => f.name == nm)

/-- `DataSet::remove_field`. -/
def DataSet.remove_field (ds : DataSet) (nm : String) : DataSet :=
  { ds with fields := ds.fields.filter (fun f => f.name != nm) }

/-- Default-constructed `DataSet` (the `output` local in `Clip::execute`). -/
def DataSet.init : DataSet := ⟨none, []⟩

/-- Model of `Collection`: the ordered local domains. -/
structure Collection where
  domains : List DataSet
deriving DecidableEq

/-- `Collection::add_domain`. -/
def Collection.add_domain (c : Collection) (d : DataSet) : Collection :=
  ⟨c.domains ++ [d]⟩

/-- The parameters `Clip::execute` sets on the external `ClipField`
collaborator before invoking it (lines 700-709). -/
structure ClipFieldParams where
  clip_value : ℚ
  field : String
  exclude_clip_field : Bool
  invert : Bool
deriving DecidableEq

/-- The reserved scratch field name (line 668). -/
def scratchFieldName : String := "__dray_clip_field__"

/-- The parameter record `Clip::execute` builds for one pass: threshold,
scratch field name, exclusion flag, and the effective invert flag, which is
negated exactly for the sphere mode (lines 700-709). -/
def clipPassParams (it : Internals) (clip_value : ℚ) (invert : Bool) : ClipFieldParams :=
  { clip_value := clip_value
  , field := scratchFieldName
  , exclude_clip_field := true
  , invert := if it.clip_mode = 1 then !invert else invert }

/-- The external `ClipField::execute` collaborator, abstracted as a function
of its configured parameters and input dataset. -/
def Clipper : Type := ClipFieldParams → DataSet → DataSet

/-- Model of the `Clip` filter object (lines 598-601 and members). -/
structure Clip where
  internals : Internals
  invert : Bool
  do_multi_plane : Bool

/-- The `Clip` default constructor (lines 598-601): fresh internals,
`m_invert = false`, `m_do_multi_plane = false`. -/
def Clip.init : Clip := ⟨Internals.init, false, false⟩

/-- The per-domain pass loop of `Clip::execute` (lines 671-720).  `m` is the
mesh of the original domain `dom`: the source computes every pass's
distances from `dom` and names the field after `dom`'s mesh.  The state is
`(remaining, pass, input, output)`; each iteration adds the scratch field to
`input`, runs the collaborator, strips the scratch field from both sides,
and chains `input = output`. -/
def runPasses (sqrt : ℚ → ℚ) (clipper : Clipper) (it : Internals)
    (invert mp : Bool) (m : Mesh) :
    ℕ → ℕ → DataSet → DataSet → Option DataSet
  | 0, _, _, output => some output
  | remaining + 1, pass, input, _ =>
    match it.make_distances sqrt m mp pass with
    | none => none
    | some (gfv, clip_value) =>
      let f : Field := ⟨scratchFieldName, m.name, gfv, m.order⟩
      let input1 := input.add_field f
      let output1 := clipper (clipPassParams it clip_value invert) input1
      let _input2 :=
        if input1.has_field scratchFieldName then input1.remove_field scratchFieldName
        else input1
      let output2 :=
        if output1.has_field scratchFieldName then output1.remove_field scratchFieldName
        else output1
      runPasses sqrt clipper it invert mp m remaining (pass + 1) output2 output2

/-- Processing of one domain with a mesh: run `num_passes` passes starting
from `input = dom` and a default-constructed `output`. -/
def clipDomain (sqrt : ℚ → ℚ) (clipper : Clipper) (it : Internals)
    (invert mp : Bool) (d : DataSet) (m : Mesh) : Option DataSet :=
  runPasses sqrt clipper it invert mp m (it.num_passes mp).toNat 0 d DataSet.init

/-- The domain loop of `Clip::execute` (lines 663-729): domains without a
mesh are skipped; each domain with a mesh contributes its final pass output,
in order. -/
def execDomains (sqrt : ℚ → ℚ) (clipper : Clipper) (it : Internals)
    (invert mp : Bool) : List DataSet → Option (List DataSet)
  | [] => some []
  | d :: rest =>
    match d.mesh with
    | none => execDomains sqrt clipper it invert mp rest
    | some m =>
      match clipDomain sqrt clipper it invert mp d m with
      | none => none
      | some out =>
        match execDomains sqrt clipper it invert mp rest with
        | none => none
        | some outs => some (out :: outs)

/-- `Clip::execute` (lines 657-732). -/
def Clip.execute (sqrt : ℚ → ℚ) (clipper : Clipper) (c : Clip)
    (coll : Collection) : Option Collection :=
  (execDomains sqrt clipper c.internals c.invert c.do_multi_plane coll.domains).map
    Collection.mk

/-- C4: `num_passes` returns 1 for the Box, Sphere and SinglePlane modes
regardless of the multipass option; for the 2-plane mode it returns 2 when
multipass is set and 1 otherwise; for the 3-plane mode it returns 3 when
multipass is set and 1 otherwise. -/
theorem num_passes_table (it : Internals) (mp : Bool) :
    (it.clip_mode = 0 ∨ it.clip_mode = 1 ∨ it.clip_mode = 2 → it.num_passes mp = 1) ∧
    (it.clip_mode = 3 → it.num_passes mp = if mp then 2 else 1) ∧
    (it.clip_mode = 4 → it.num_passes mp = if mp then 3 else 1) := by
  unfold Internals.num_passes
  refine ⟨?_, ?_, ?_⟩
  · rintro (h | h | h) <;> rw [h] <;> cases mp <;> simp
  · intro h; rw [h]; cases mp <;> simp
  · intro h; rw [h]; cases mp <;> simp

/-- Witness for C4: a sphere configuration runs one pass even with the
multipass option set. -/
theorem num_passes_table_witness :
    (Internals.init.setSphereClip ⟨0, 0, 0⟩ 2).num_passes true = 1 :=
  (num_passes_table (Internals.init.setSphereClip ⟨0, 0, 0⟩ 2) true).1
    (Or.inr (Or.inl rfl))

/-- C2: the invert flag handed to the element-clip collaborator is the
negation of the configured invert option exactly in sphere mode, and the
configured option unchanged in box, single-plane, 2-plane and 3-plane
modes. -/
theorem invert_flag_table (it : Internals) (cv : ℚ) (b : Bool) :
    (it.clip_mode = 1 → (clipPassParams it cv b).invert = !b) ∧
    (it.clip_mode = 0 ∨ it.clip_mode = 2 ∨ it.clip_mode = 3 ∨ it.clip_mode = 4 →
      (clipPassParams it cv b).invert = b) := by
  unfold clipPassParams
  constructor
  · intro h; rw [h]; simp
  · rintro (h | h | h | h) <;> rw [h] <;> simp

/-- Witness for C2: sphere mode with invert=false delivers true; the
default single-plane mode with invert=false delivers false. -/
theorem invert_flag_table_witness :
    (clipPassParams (Internals.init.setSphereClip ⟨0, 0, 0⟩ 1) 0 false).invert = true ∧
    (clipPassParams Internals.init 0 false).invert = false :=
  ⟨(invert_flag_table (Internals.init.setSphereClip ⟨0, 0, 0⟩ 1) 0 false).1 rfl,
   (invert_flag_table Internals.init 0 false).2 (Or.inr (Or.inl rfl))⟩

/-- C9: `normalize` computes the magnitude with the external square root;
when that magnitude is not positive the vector is returned unchanged, and
when it is positive each component is divided by it. -/
theorem normalize_guard (sqrt : ℚ → ℚ) (v : Vec3) :
    (sqrt (v.x * v.x + v.y * v.y + v.z * v.z) ≤ 0 → normalize sqrt v = v) ∧
    (0 < sqrt (v.x * v.x + v.y * v.y + v.z * v.z) →
      normalize sqrt v =
        ⟨v.x / sqrt (v.x * v.x + v.y * v.y + v.z * v.z),
         v.y / sqrt (v.x * v.x + v.y * v.y + v.z * v.z),
         v.z / sqrt (v.x * v.x + v.y * v.y + v.z * v.z)⟩) := by
  constructor
  · intro h
    simp only [normalize]
    rw [if_neg (not_lt.mpr h)]
  · intro h
    simp only [normalize]
    rw [if_pos h]

/-- Witness for C9: with the identity standing in for the square root, the
zero vector is left unchanged and a nonzero vector is divided by its
computed magnitude. -/
theorem normalize_guard_witness :
    normalize (fun q => q) ⟨0, 0, 0⟩ = ⟨0, 0, 0⟩ ∧
    normalize (fun q => q) ⟨3, 0, 0⟩ =
      ⟨3 / (3 * 3 + 0 * 0 + 0 * 0), 0 / (3 * 3 + 0 * 0 + 0 * 0),
       0 / (3 * 3 + 0 * 0 + 0 * 0)⟩ :=
  ⟨(normalize_guard (fun q => q) ⟨0, 0, 0⟩).1 (by norm_num),
   (normalize_guard (fun q => q) ⟨3, 0, 0⟩).2 (by norm_num)⟩

/-- Identity function standing in for the external square root in concrete
evaluations. -/
def idSqrt : ℚ → ℚ := fun q => q

/-- A one-point demonstration mesh with its control point at `(5, 0, 0)`. -/
def demoMesh : Mesh := ⟨"mesh", ⟨1, 1, 1, [0], [⟨5, 0, 0⟩]⟩, 1⟩

/-- C3: the `make_distances` dispatch table.  Box, sphere and single-plane
modes invoke their own evaluator independently of the pass index; a 2- or
3-plane mode with multipass invokes the single-plane evaluator on the plane
at the pass index; a 2- or 3-plane mode without multipass invokes the
multi-plane evaluator on all configured planes, independently of the pass
index.  The clip value is 0 for the box and all plane modes and the
configured radius for the sphere mode. -/
theorem make_distances_dispatch (it : Internals) (sqrt : ℚ → ℚ) (m : Mesh)
    (mp : Bool) (pass : ℕ) :
    (it.clip_mode = 0 →
      it.make_distances sqrt m mp pass = some (boxDistanceField it.boxbounds m.gf, 0)) ∧
    (it.clip_mode = 1 →
      it.make_distances sqrt m mp pass
        = some (sphereDistanceField sqrt it.sphere_center m.gf, it.sphere_radius)) ∧
    (it.clip_mode = 2 →
      it.make_distances sqrt m mp pass
        = some (singlePlaneDistanceField sqrt (it.plane_origin.get 0)
            (it.plane_normal.get 0) m.gf, 0)) ∧
    (it.clip_mode = 3 ∨ it.clip_mode = 4 → mp = true →
      it.make_distances sqrt m mp pass
        = some (singlePlaneDistanceField sqrt (it.plane_origin.get pass)
            (it.plane_normal.get pass) m.gf, 0)) ∧
    (it.clip_mode = 3 ∨ it.clip_mode = 4 → mp = false →
      ∃ g, multiPlaneDistanceField sqrt it.plane_origin it.plane_normal
            (it.clip_mode - 1) m.gf = some g ∧
        it.make_distances sqrt m mp pass = some (g, 0)) := by
  refine ⟨?_, ?_, ?_, ?_, ?_⟩
  · intro h
    simp [Internals.make_distances, h, Internals.make_box_distances]
  · intro h
    simp [Internals.make_distances, h, Internals.make_sphere_distances]
  · intro h
    simp [Internals.make_distances, h, Internals.make_plane_distances]
  · rintro (h | h) hmp <;> subst hmp <;>
      simp [Internals.make_distances, h, Internals.make_plane_distances]
  · rintro (h | h) hmp <;> subst hmp <;>
      · have hg : ∃ g, multiPlaneDistanceField sqrt it.plane_origin it.plane_normal
            (it.clip_mode - 1) m.gf = some g := by
          rw [h]
          simp [multiPlaneDistanceField]
        obtain ⟨g, hgeq⟩ := hg
        refine ⟨g, hgeq, ?_⟩
        rw [h] at hgeq
        norm_num at hgeq
        simp [Internals.make_distances, h, Internals.make_multi_plane_distances, hgeq]

/-- Witness for C3: every row of the dispatch table evaluated on concrete
configurations and the demonstration mesh. -/
theorem make_distances_dispatch_witness :
    ((Internals.init.setBoxClip ⟨⟨0, 1⟩, ⟨0, 1⟩, ⟨0, 1⟩⟩).make_distances idSqrt
        demoMesh false 0
      = some (boxDistanceField ⟨⟨0, 1⟩, ⟨0, 1⟩, ⟨0, 1⟩⟩ demoMesh.gf, 0)) ∧
    ((Internals.init.setSphereClip ⟨0, 0, 0⟩ 2).make_distances idSqrt demoMesh false 0
      = some (sphereDistanceField idSqrt ⟨0, 0, 0⟩ demoMesh.gf, 2)) ∧
    (Internals.init.make_distances idSqrt demoMesh false 0
      = some (singlePlaneDistanceField idSqrt ⟨0, 0, 0⟩ ⟨1, 0, 0⟩ demoMesh.gf, 0)) ∧
    ((Internals.init.set2PlaneClip ⟨0, 0, 0⟩ ⟨1, 0, 0⟩ ⟨1, 0, 0⟩ ⟨1, 0, 0⟩).make_distances
        idSqrt demoMesh true 1
      = some (singlePlaneDistanceField idSqrt ⟨1, 0, 0⟩ ⟨1, 0, 0⟩ demoMesh.gf, 0)) ∧
    (∃ g, multiPlaneDistanceField idSqrt
          (Internals.init.set2PlaneClip ⟨0, 0, 0⟩ ⟨1, 0, 0⟩ ⟨1, 0, 0⟩ ⟨1, 0, 0⟩).plane_origin
          (Internals.init.set2PlaneClip ⟨0, 0, 0⟩ ⟨1, 0, 0⟩ ⟨1, 0, 0⟩ ⟨1, 0, 0⟩).plane_normal
          ((Internals.init.set2PlaneClip ⟨0, 0, 0⟩ ⟨1, 0, 0⟩ ⟨1, 0, 0⟩
              ⟨1, 0, 0⟩).clip_mode - 1) demoMesh.gf = some g ∧
      (Internals.init.set2PlaneClip ⟨0, 0, 0⟩ ⟨1, 0, 0⟩ ⟨1, 0, 0⟩
        ⟨1, 0, 0⟩).make_distances idSqrt demoMesh false 0 = some (g, 0)) :=
  ⟨(make_distances_dispatch _ idSqrt demoMesh false 0).1 rfl,
   (make_distances_dispatch _ idSqrt demoMesh false 0).2.1 rfl,
   (make_distances_dispatch _ idSqrt demoMesh false 0).2.2.1 rfl,
   (make_distances_dispatch _ idSqrt demoMesh true 1).2.2.2.1 (Or.inl rfl) rfl,
   (make_distances_dispatch _ idSqrt demoMesh false 0).2.2.2.2 (Or.inl rfl) rfl⟩

/-- C5: for a 1-, 2- or 3-plane configuration the fused multi-plane
evaluator succeeds, and the scalar it stores at any control point is the
minimum over the configured planes of the single-plane signed distances
against the normalized normals. -/
theorem multi_plane_min (sqrt : ℚ → ℚ) (origin normal : Planes3) (n : ℤ)
    (h1 : 1 ≤ n) (h3 : n ≤ 3) (mgf : GridFunction Vec3) (i : ℕ) (pt : Vec3)
    (hpt : mgf.values[i]? = some pt) :
    ∃ g, multiPlaneDistanceField sqrt origin normal n mgf = some g ∧
      g.values[i]?
        = ((List.range n.toNat).map (fun p =>
            singlePlanePointDist (origin.get p) (normalize sqrt (normal.get p))
              pt)).min? := by
  interval_cases n <;>
    refine ⟨_, rfl, ?_⟩ <;>
    simp [mkDistanceField, List.getElem?_map, hpt, multiPlanePointDist,
      List.range_succ, Planes3.get, min_assoc]

/-- Witness for C5: two planes, one control point. -/
theorem multi_plane_min_witness :
    ∃ g, multiPlaneDistanceField idSqrt ⟨⟨0, 0, 0⟩, ⟨1, 0, 0⟩, ⟨0, 0, 0⟩⟩
          ⟨⟨1, 0, 0⟩, ⟨1, 0, 0⟩, ⟨0, 0, 1⟩⟩ 2 demoMesh.gf = some g ∧
      g.values[0]?
        = ((List.range (2 : ℤ).toNat).map (fun p =>
            singlePlanePointDist ((⟨⟨0, 0, 0⟩, ⟨1, 0, 0⟩, ⟨0, 0, 0⟩⟩ : Planes3).get p)
              (normalize idSqrt ((⟨⟨1, 0, 0⟩, ⟨1, 0, 0⟩, ⟨0, 0, 1⟩⟩ : Planes3).get p))
              ⟨5, 0, 0⟩)).min? :=
  multi_plane_min idSqrt ⟨⟨0, 0, 0⟩, ⟨1, 0, 0⟩, ⟨0, 0, 0⟩⟩
    ⟨⟨1, 0, 0⟩, ⟨1, 0, 0⟩, ⟨0, 0, 1⟩⟩ 2 (by norm_num) (by norm_num)
    demoMesh.gf 0 ⟨5, 0, 0⟩ rfl

/-- C6: the box evaluator writes, at each control point, the maximum of the
six axis-aligned half-space signed distances of the box; consequently the
value is negative strictly inside, zero on a face whose other axes are
interior, and positive outside. -/
theorem box_distance_spec (b : AABB) (p : Vec3) :
    (∀ mgf : GridFunction Vec3,
      (boxDistanceField b mgf).values = mgf.values.map (boxPointDist b)) ∧
    boxPointDist b p
      = max (max (max (max (max (b.r0.rmin - p.x) (p.x - b.r0.rmax))
          (b.r1.rmin - p.y)) (p.y - b.r1.rmax)) (b.r2.rmin - p.z)) (p.z - b.r2.rmax) ∧
    (b.r0.rmin < p.x ∧ p.x < b.r0.rmax ∧ b.r1.rmin < p.y ∧ p.y < b.r1.rmax ∧
        b.r2.rmin < p.z ∧ p.z < b.r2.rmax →
      boxPointDist b p < 0) ∧
    (((p.x = b.r0.rmin ∨ p.x = b.r0.rmax) ∧ b.r0.rmin ≤ b.r0.rmax ∧
        b.r1.rmin < p.y ∧ p.y < b.r1.rmax ∧ b.r2.rmin < p.z ∧ p.z < b.r2.rmax) ∨
     ((p.y = b.r1.rmin ∨ p.y = b.r1.rmax) ∧ b.r1.rmin ≤ b.r1.rmax ∧
        b.r0.rmin < p.x ∧ p.x < b.r0.rmax ∧ b.r2.rmin < p.z ∧ p.z < b.r2.rmax) ∨
     ((p.z = b.r2.rmin ∨ p.z = b.r2.rmax) ∧ b.r2.rmin ≤ b.r2.rmax ∧
        b.r0.rmin < p.x ∧ p.x < b.r0.rmax ∧ b.r1.rmin < p.y ∧ p.y < b.r1.rmax) →
      boxPointDist b p = 0) ∧
    ((p.x < b.r0.rmin ∨ b.r0.rmax < p.x ∨ p.y < b.r1.rmin ∨ b.r1.rmax < p.y ∨
        p.z < b.r2.rmin ∨ b.r2.rmax < p.z) →
      0 < boxPointDist b p) := by
  have e1 : (p.x - b.r0.rmin) * (-1) + (p.y - b.r1.rmin) * 0 + (p.z - b.r2.rmin) * 0
      = b.r0.rmin - p.x := by ring
  have e2 : (p.x - b.r0.rmax) * 1 + (p.y - b.r1.rmin) * 0 + (p.z - b.r2.rmin) * 0
      = p.x - b.r0.rmax := by ring
  have e3 : (p.x - b.r0.rmin) * 0 + (p.y - b.r1.rmin) * (-1) + (p.z - b.r2.rmin) * 0
      = b.r1.rmin - p.y := by ring
  have e4 : (p.x - b.r0.rmin) * 0 + (p.y - b.r1.rmax) * 1 + (p.z - b.r2.rmin) * 0
      = p.y - b.r1.rmax := by ring
  have e5 : (p.x - b.r0.rmin) * 0 + (p.y - b.r1.rmin) * 0 + (p.z - b.r2.rmin) * (-1)
      = b.r2.rmin - p.z := by ring
  have e6 : (p.x - b.r0.rmin) * 0 + (p.y - b.r1.rmin) * 0 + (p.z - b.r2.rmax) * 1
      = p.z - b.r2.rmax := by ring
  have hmax : boxPointDist b p
      = max (max (max (max (max (b.r0.rmin - p.x) (p.x - b.r0.rmax))
          (b.r1.rmin - p.y)) (p.y - b.r1.rmax)) (b.r2.rmin - p.z)) (p.z - b.r2.rmax) := by
    simp only [boxPointDist, e1, e2, e3, e4, e5, e6]
  refine ⟨fun mgf => rfl, hmax, ?_, ?_, ?_⟩
  · rintro ⟨hx1, hx2, hy1, hy2, hz1, hz2⟩
    rw [hmax]
    exact max_lt (max_lt (max_lt (max_lt (max_lt (by linarith) (by linarith))
      (by linarith)) (by linarith)) (by linarith)) (by linarith)
  · intro hface
    rw [hmax]
    apply le_antisymm
    · rcases hface with ⟨hx, hle, hy1, hy2, hz1, hz2⟩ |
        ⟨hy, hle, hx1, hx2, hz1, hz2⟩ | ⟨hz, hle, hx1, hx2, hy1, hy2⟩ <;>
        rcases ‹_ ∨ _› with h | h <;>
        simp only [max_le_iff] <;>
        refine ⟨⟨⟨⟨⟨by linarith, by linarith⟩, by linarith⟩, by linarith⟩,
          by linarith⟩, by linarith⟩
    · simp only [le_max_iff]
      rcases hface with ⟨hx, hle, hy1, hy2, hz1, hz2⟩ |
        ⟨hy, hle, hx1, hx2, hz1, hz2⟩ | ⟨hz, hle, hx1, hx2, hy1, hy2⟩
      · rcases hx with h | h
        · exact Or.inl (Or.inl (Or.inl (Or.inl (Or.inl (by linarith)))))
        · exact Or.inl (Or.inl (Or.inl (Or.inl (Or.inr (by linarith)))))
      · rcases hy with h | h
        · exact Or.inl (Or.inl (Or.inl (Or.inr (by linarith))))
        · exact Or.inl (Or.inl (Or.inr (by linarith)))
      · rcases hz with h | h
        · exact Or.inl (Or.inr (by linarith))
        · exact Or.inr (by linarith)
  · intro hout
    rw [hmax]
    simp only [lt_max_iff]
    rcases hout with h | h | h | h | h | h
    · exact Or.inl (Or.inl (Or.inl (Or.inl (Or.inl (by linarith)))))
    · exact Or.inl (Or.inl (Or.inl (Or.inl (Or.inr (by linarith)))))
    · exact Or.inl (Or.inl (Or.inl (Or.inr (by linarith))))
    · exact Or.inl (Or.inl (Or.inr (by linarith)))
    · exact Or.inl (Or.inr (by linarith))
    · exact Or.inr (by linarith)

/-- Witness for C6: the unit box evaluated strictly inside, on the x-min
face, and outside. -/
theorem box_distance_spec_witness :
    boxPointDist ⟨⟨0, 1⟩, ⟨0, 1⟩, ⟨0, 1⟩⟩ ⟨1/2, 1/2, 1/2⟩ < 0 ∧
    boxPointDist ⟨⟨0, 1⟩, ⟨0, 1⟩, ⟨0, 1⟩⟩ ⟨0, 1/2, 1/2⟩ = 0 ∧
    0 < boxPointDist ⟨⟨0, 1⟩, ⟨0, 1⟩, ⟨0, 1⟩⟩ ⟨2, 1/2, 1/2⟩ :=
  ⟨(box_distance_spec ⟨⟨0, 1⟩, ⟨0, 1⟩, ⟨0, 1⟩⟩ ⟨1/2, 1/2, 1/2⟩).2.2.1
      (by norm_num),
   (box_distance_spec ⟨⟨0, 1⟩, ⟨0, 1⟩, ⟨0, 1⟩⟩ ⟨0, 1/2, 1/2⟩).2.2.2.1
      (Or.inl (by norm_num)),
   (box_distance_spec ⟨⟨0, 1⟩, ⟨0, 1⟩, ⟨0, 1⟩⟩ ⟨2, 1/2, 1/2⟩).2.2.2.2
      (Or.inr (Or.inl (by norm_num)))⟩

/-- Removing a field by name leaves no field of that name behind. -/
theorem remove_field_scrubs (ds : DataSet) (nm : String) :
    (ds.remove_field nm).has_field nm = false := by
  simp [DataSet.remove_field, DataSet.has_field, List.any_eq_true]

/-- The conditional removal done at the end of each pass leaves no scratch
field behind. -/
theorem scrub_step (ds : DataSet) :
    (if ds.has_field scratchFieldName then ds.remove_field scratchFieldName
     else ds).has_field scratchFieldName = false := by
  split
  · exact remove_field_scrubs ds scratchFieldName
  · rename_i h
    simpa using h

/-- The pass loop preserves the absence of the scratch field in the carried
output dataset. -/
theorem runPasses_no_scratch (sqrt : ℚ → ℚ) (clipper : Clipper) (it : Internals)
    (invert mp : Bool) (m : Mesh) :
    ∀ (k pass : ℕ) (input output out : DataSet),
      output.has_field scratchFieldName = false →
      runPasses sqrt clipper it invert mp m k pass input output = some out →
      out.has_field scratchFieldName = false := by
  intro k
  induction k with
  | zero =>
    intro pass input output out h0 hrun
    simp only [runPasses, Option.some.injEq] at hrun
    rw [← hrun]
    exact h0
  | succ n ih =>
    intro pass input output out h0 hrun
    rw [runPasses] at hrun
    cases hmd : it.make_distances sqrt m mp pass with
    | none => rw [hmd] at hrun; exact absurd hrun (by simp)
    | some fv =>
      obtain ⟨gfv, cv⟩ := fv
      rw [hmd] at hrun
      exact ih _ _ _ _ (scrub_step _) hrun

/-- Every domain produced by the domain loop is free of the scratch
field. -/
theorem execDomains_no_scratch (sqrt : ℚ → ℚ) (clipper : Clipper) (it : Internals)
    (invert mp : Bool) :
    ∀ (ds outs : List DataSet),
      execDomains sqrt clipper it invert mp ds = some outs →
      ∀ o ∈ outs, o.has_field scratchFieldName = false := by
  intro ds
  induction ds with
  | nil =>
    intro outs h
    simp only [execDomains, Option.some.injEq] at h
    rw [← h]
    intro o ho
    exact absurd ho (by simp)
  | cons d rest ih =>
    intro outs h
    rw [execDomains] at h
    split at h
    · exact ih outs h
    · rename_i m hm
      split at h
      · exact absurd h (by simp)
      · rename_i out hcd
        split at h
        · exact absurd h (by simp)
        · rename_i outs2 hrest
          simp only [Option.some.injEq] at h
          rw [← h]
          intro o ho
          rcases List.mem_cons.mp ho with ho | ho
          · rw [ho]
            exact runPasses_no_scratch sqrt clipper it invert mp m
              (it.num_passes mp).toNat 0 d DataSet.init out rfl hcd
          · exact ih outs2 hrest o ho

/-- C7: no domain of the collection returned by `execute` carries a field
with the reserved scratch name, for every shape configuration, pass count,
collaborator behaviour and input collection. -/
theorem execute_no_scratch (sqrt : ℚ → ℚ) (clipper : Clipper) (c : Clip)
    (coll res : Collection) (h : c.execute sqrt clipper coll = some res) :
    ∀ d ∈ res.domains, d.has_field scratchFieldName = false := by
  unfold Clip.execute at h
  cases he : execDomains sqrt clipper c.internals c.invert c.do_multi_plane
      coll.domains with
  | none => rw [he] at h; exact absurd h (by simp)
  | some outs =>
    rw [he] at h
    simp only [Option.map, Option.some.injEq] at h
    rw [← h]
    exact execDomains_no_scratch sqrt clipper c.internals c.invert c.do_multi_plane
      coll.domains outs he

/-- The element-clip collaborator modelled as the identity on its input. -/
def idClipper : Clipper := fun _ ds => ds

/-- A one-domain demonstration collection over `demoMesh`. -/
def demoColl1 : Collection := ⟨[⟨some demoMesh, []⟩]⟩

/-- Witness for C7: the output domain of a concrete default-configured run
has no scratch field. -/
theorem execute_no_scratch_witness :
    DataSet.has_field ⟨some demoMesh, []⟩ scratchFieldName = false :=
  execute_no_scratch idSqrt idClipper Clip.init demoColl1
    ⟨[⟨some demoMesh, []⟩]⟩ rfl ⟨some demoMesh, []⟩ (by simp)

/-- The domain loop produces exactly one output per input domain that has a
mesh, in input order, each obtained by clipping that domain. -/
theorem execDomains_forall2 (sqrt : ℚ → ℚ) (clipper : Clipper) (it : Internals)
    (invert mp : Bool) :
    ∀ (ds outs : List DataSet),
      execDomains sqrt clipper it invert mp ds = some outs →
      List.Forall₂ (fun d out => ∃ m, d.mesh = some m ∧
          clipDomain sqrt clipper it invert mp d m = some out)
        (ds.filter (fun d => d.mesh.isSome)) outs := by
  intro ds
  induction ds with
  | nil =>
    intro outs h
    simp only [execDomains, Option.some.injEq] at h
    rw [← h]
    simp
  | cons d rest ih =>
    intro outs h
    rw [execDomains] at h
    split at h
    · rename_i hm
      simpa [List.filter_cons, hm] using ih outs h
    · rename_i m hm
      split at h
      · exact absurd h (by simp)
      · rename_i out hcd
        split at h
        · exact absurd h (by simp)
        · rename_i outs2 hrest
          simp only [Option.some.injEq] at h
          rw [← h]
          rw [List.filter_cons]
          simp only [hm, Option.isSome_some, if_pos]
          exact List.Forall₂.cons ⟨m, hm, hcd⟩ (ih outs2 hrest)

/-- C8: `execute` returns one output domain per input domain that has a
mesh, in input order, each the result of the pass loop on that domain;
domains without a mesh are dropped. -/
theorem execute_domain_correspondence (sqrt : ℚ → ℚ) (clipper : Clipper)
    (c : Clip) (coll res : Collection)
    (h : c.execute sqrt clipper coll = some res) :
    List.Forall₂ (fun d out => ∃ m, d.mesh = some m ∧
        clipDomain sqrt clipper c.internals c.invert c.do_multi_plane d m = some out)
      (coll.domains.filter (fun d => d.mesh.isSome)) res.domains := by
  unfold Clip.execute at h
  cases he : execDomains sqrt clipper c.internals c.invert c.do_multi_plane
      coll.domains with
  | none => rw [he] at h; exact absurd h (by simp)
  | some outs =>
    rw [he] at h
    simp only [Option.map, Option.some.injEq] at h
    rw [← h]
    exact execDomains_forall2 sqrt clipper c.internals c.invert c.do_multi_plane
      coll.domains outs he

/-- A demonstration collection with one meshless and one meshful domain. -/
def demoColl2 : Collection := ⟨[⟨none, []⟩, ⟨some demoMesh, []⟩]⟩

/-- Witness for C8: the meshless domain is dropped and the meshful domain
maps to the single output domain. -/
theorem execute_domain_correspondence_witness :
    List.Forall₂ (fun d out => ∃ m, d.mesh = some m ∧
        clipDomain idSqrt idClipper Clip.init.internals Clip.init.invert
          Clip.init.do_multi_plane d m = some out)
      (demoColl2.domains.filter (fun d => d.mesh.isSome))
      [⟨some demoMesh, []⟩] :=
  execute_domain_correspondence idSqrt idClipper Clip.init demoColl2
    ⟨[⟨some demoMesh, []⟩]⟩ rfl

/-- C10: a freshly constructed `Clip` has invert and multi-plane options
off and single-plane mode with plane origin `(0,0,0)` and normal
`(1,0,0)`; it therefore runs one pass whose distance field is the `x`
coordinate of each control point (the signed distance to the plane `x = 0`)
with clip value 0, for any square root fixing 1. -/
theorem default_clip_single_plane_x0 :
    Clip.init.invert = false ∧ Clip.init.do_multi_plane = false ∧
    Clip.init.internals.clip_mode = 2 ∧
    Clip.init.internals.plane_origin.get 0 = ⟨0, 0, 0⟩ ∧
    Clip.init.internals.plane_normal.get 0 = ⟨1, 0, 0⟩ ∧
    Clip.init.internals.num_passes Clip.init.do_multi_plane = 1 ∧
    (∀ (sqrt : ℚ → ℚ), sqrt 1 = 1 → ∀ (m : Mesh) (pass : ℕ),
      Clip.init.internals.make_distances sqrt m Clip.init.do_multi_plane pass
        = some (⟨m.gf.el_dofs, m.gf.size_el, m.gf.size_ctrl, m.gf.ctrl_idx,
            m.gf.values.map (fun p => p.x)⟩, 0)) := by
  refine ⟨rfl, rfl, rfl, rfl, rfl, rfl, ?_⟩
  intro sqrt hs m pass
  have hn : normalize sqrt ⟨1, 0, 0⟩ = ⟨1, 0, 0⟩ := by
    simp only [normalize]
    norm_num [hs]
  have hfun : (fun p : Vec3 => singlePlanePointDist ⟨0, 0, 0⟩ ⟨1, 0, 0⟩ p)
      = fun p : Vec3 => p.x := by
    funext p
    simp only [singlePlanePointDist]
    ring
  show Internals.init.make_distances sqrt m false pass = _
  simp only [Internals.make_distances, Internals.init]
  norm_num [Internals.make_plane_distances, singlePlaneDistanceField, Planes3.get,
    hn, mkDistanceField, hfun]

/-- Witness for C10: the default configuration on the demonstration mesh
with the identity square root. -/
theorem default_clip_single_plane_x0_witness :
    Clip.init.internals.make_distances idSqrt demoMesh Clip.init.do_multi_plane 0
      = some (⟨demoMesh.gf.el_dofs, demoMesh.gf.size_el, demoMesh.gf.size_ctrl,
          demoMesh.gf.ctrl_idx, demoMesh.gf.values.map (fun p => p.x)⟩, 0) :=
  default_clip_single_plane_x0.2.2.2.2.2.2 idSqrt rfl demoMesh 0

/-- A second mesh standing for the geometry produced by the collaborator in
the first pass, with its control point at `(9, 0, 0)`. -/
def demoMesh2 : Mesh := ⟨"mesh2", ⟨1, 1, 1, [0], [⟨9, 0, 0⟩]⟩, 1⟩

/-- A collaborator that replaces the mesh with `demoMesh2` and keeps every
incoming field under a renamed key, so that the fields attached by each
pass stay observable in the final output. -/
def probeClipper : Clipper := fun _ ds =>
  ⟨some demoMesh2, ds.fields.map (fun f => { f with name := f.name ++ "s" })⟩

/-- A 2-plane multipass configuration: plane 0 through the origin and
plane 1 through `(1,0,0)`, both with normal `(1,0,0)`. -/
def demoClip2 : Clip :=
  ⟨Internals.init.set2PlaneClip ⟨0, 0, 0⟩ ⟨1, 0, 0⟩ ⟨1, 0, 0⟩ ⟨1, 0, 0⟩, false, true⟩

/-- C1 exhibit: in the 2-plane multipass run over a one-point domain at
`(5,0,0)`, where the collaborator replaces the pass-0 geometry by
`demoMesh2` at `(9,0,0)`, the distance field attached in pass 1 holds the
value 4 — the plane-1 distance of the ORIGINAL domain's point `(5,0,0)` —
whereas the plane-1 distance of the current pass input's point `(9,0,0)` is
8.  So pass 1 computes its distances from the original input domain, not
from the output of pass 0. -/
theorem multipass_uses_original_domain :
    (Clip.execute idSqrt probeClipper demoClip2 demoColl1).map
        (fun r => r.domains.map (fun d => d.fields.map (fun f => (f.name, f.gf.values))))
      = some [[(scratchFieldName ++ "ss", [(5 : ℚ)]),
               (scratchFieldName ++ "s", [(4 : ℚ)])]] ∧
    singlePlanePointDist ⟨1, 0, 0⟩ (normalize idSqrt ⟨1, 0, 0⟩) ⟨5, 0, 0⟩ = 4 ∧
    singlePlanePointDist ⟨1, 0, 0⟩ (normalize idSqrt ⟨1, 0, 0⟩) ⟨9, 0, 0⟩ = 8 ∧
    (4 : ℚ) ≠ 8 := by
  have hn : normalize idSqrt ⟨1, 0, 0⟩ = ⟨1, 0, 0⟩ := by
    simp only [normalize, idSqrt]
    norm_num
  refine ⟨by with_unfolding_all rfl, ?_, ?_, by norm_num⟩
  · rw [hn]
    simp only [singlePlanePointDist]
    norm_num
  · rw [hn]
    simp only [singlePlanePointDist]
    norm_num

end Dray
